import Mathlib

/-!
Verification of the k8s-sentinel admission-webhook policy engine.

The definitions below are a shallow embedding of the Rust sources:
`src/policies/mod.rs`, `src/policies/resource_limits.rs`,
`src/policies/image_registry.rs`, `src/policies/labels.rs`,
`src/policies/topology_spread.rs`, `src/engine.rs`, `src/handlers.rs` and
`src/config.rs`.  JSON values (`serde_json::Value`) are modelled by the
`Json` inductive with integer numbers; compiled regexes are modelled by an
abstract match function together with their source text; wall-clock timing
(`Instant`/`Duration`) is external and omitted from `PolicyResult`.
-/

namespace Sentinel

/-- Untyped JSON value, embedding `serde_json::Value`.  Numbers are
modelled as integers (the only numeric fields the engine reads are
`maxSkew`-style integers; quantity strings are parsed separately). -/
inductive Json where
  | null : Json
  | bool (b : Bool) : Json
  | num (n : Int) : Json
  | str (s : String) : Json
  | arr (elems : List Json) : Json
  | obj (fields : List (String × Json)) : Json

/-- First-match association lookup, embedding `Map::get` on JSON objects. -/
def lookupField : List (String × Json) → String → Option Json
  | [], _ => none
  | (k, v) :: rest, key => if k = key then some v else lookupField rest key

/-- `Value::get(key)`: field lookup, `none` on non-objects. -/
def Json.get (j : Json) (key : String) : Option Json :=
  match j with
  | .obj fields => lookupField fields key
  | _ => none

/-- `Value::as_str`. -/
def Json.asStr : Json → Option String
  | .str s => some s
  | _ => none

/-- `Value::as_array`. -/
def Json.asArray : Json → Option (List Json)
  | .arr elems => some elems
  | _ => none

/-- `Value::as_object` (the field list plays the role of the map). -/
def Json.asObject : Json → Option (List (String × Json))
  | .obj fields => some fields
  | _ => none

/-- `Value::as_i64`: integer numbers within the signed 64-bit range. -/
def Json.asI64 : Json → Option Int
  | .num n => if -(2 ^ 63) ≤ n ∧ n ≤ 2 ^ 63 - 1 then some n else none
  | _ => none

/-- `kube::core::DynamicObject`: typed metadata plus untyped payload. -/
structure DynamicObject where
  metadataLabels : Option (List (String × String))
  metadataGenerateName : Option String
  data : Json

/-- The slice of `AdmissionRequest<DynamicObject>` the engine consumes:
`uid`, `name`, `kind.kind` and the optional decoded object. -/
structure AdmissionRequest where
  uid : String
  name : String
  kind : String
  object : Option DynamicObject

/-- First-match lookup in the metadata label map (`BTreeMap::get`). -/
def lookupStr : List (String × String) → String → Option String
  | [], _ => none
  | (k, v) :: rest, key => if k = key then some v else lookupStr rest key

/-! ## Object walker (`src/policies/mod.rs`) -/

/-- `get_pod_spec` from `policies/mod.rs`: selects the pod template by
workload kind; unknown kinds yield `none`. -/
def getPodSpec (data : Json) (kind : String) : Option Json :=
  if kind = "Pod" then data.get "spec"
  else if kind = "Deployment" ∨ kind = "ReplicaSet" ∨ kind = "StatefulSet"
      ∨ kind = "DaemonSet" ∨ kind = "Job" then
    ((data.get "spec").bind (fun s => s.get "template")).bind
      (fun t => t.get "spec")
  else if kind = "CronJob" then
    (((((data.get "spec").bind (fun s => s.get "jobTemplate")).bind
      (fun j => j.get "spec")).bind (fun s => s.get "template")).bind
      (fun t => t.get "spec"))
  else none

/-- The JSON-Pointer token prefix from `policies/mod.rs` (match arms
`"Pod"`, `"CronJob"`, wildcard). -/
def specPrefix (kind : String) : String :=
  if kind = "Pod" then "spec"
  else if kind = "CronJob" then "spec/jobTemplate/spec/template/spec"
  else "spec/template/spec"

/-- `get_containers`: `spec.containers` with zero-based indices. -/
def getContainers (podSpec : Json) : List (Nat × Json) :=
  match (podSpec.get "containers").bind Json.asArray with
  | some elems => elems.enum
  | none => []

/-- `container_name`: the `name` field if a string, else `"<unnamed>"`. -/
def containerName (c : Json) : String :=
  ((c.get "name").bind Json.asStr).getD "<unnamed>"

/-- `resource_name`: the request name if non-empty, else
`metadata.generateName`, else `"<unknown>"`. -/
def resourceName (request : AdmissionRequest) (object : DynamicObject) : String :=
  if request.name = "" then object.metadataGenerateName.getD "<unknown>"
  else request.name

/-! ## Configuration (`src/config.rs`) -/

inductive PolicyMode where
  | enforce : PolicyMode
  | warn : PolicyMode
deriving DecidableEq

inductive PolicyName where
  | resource_limits : PolicyName
  | image_registry : PolicyName
  | labels : PolicyName
  | topology_spread : PolicyName
deriving DecidableEq

/-- `PolicyName::ALL`: the declared iteration order. -/
def PolicyName.ALL : List PolicyName :=
  [.resource_limits, .image_registry, .labels, .topology_spread]

/-- `PolicyName::as_str`, also its `Display` instance. -/
def PolicyName.toStr : PolicyName → String
  | .resource_limits => "resource_limits"
  | .image_registry => "image_registry"
  | .labels => "labels"
  | .topology_spread => "topology_spread"

structure ResourceLimitsPolicy where
  enabled : Bool
  mode : PolicyMode
  max_cpu_millicores : Option Nat
  max_memory_mb : Option Nat
  inject_defaults : Bool
  default_cpu_request : String
  default_cpu_limit : String
  default_memory_request : String
  default_memory_limit : String

structure AllowedRegistriesPolicy where
  enabled : Bool
  mode : PolicyMode
  registries : List String
  allow_latest_tag : Bool

structure RequiredLabel where
  key : String
  pattern : Option String

structure RequiredLabelsPolicy where
  enabled : Bool
  mode : PolicyMode
  labels : List RequiredLabel

structure TopologySpreadPolicy where
  enabled : Bool
  mode : PolicyMode
  max_skew : Int
  topology_key : String
  when_unsatisfiable : String
  inject_if_missing : Bool

structure PoliciesConfig where
  resource_limits : ResourceLimitsPolicy
  image_registry : AllowedRegistriesPolicy
  labels : RequiredLabelsPolicy
  topology_spread : TopologySpreadPolicy

/-- `PoliciesConfig::policy_mode`. -/
def PoliciesConfig.policyMode (c : PoliciesConfig) : PolicyName → PolicyMode
  | .resource_limits => c.resource_limits.mode
  | .image_registry => c.image_registry.mode
  | .labels => c.labels.mode
  | .topology_spread => c.topology_spread.mode

/-- `PoliciesConfig::policy_enabled`. -/
def PoliciesConfig.policyEnabled (c : PoliciesConfig) : PolicyName → Bool
  | .resource_limits => c.resource_limits.enabled
  | .image_registry => c.image_registry.enabled
  | .labels => c.labels.enabled
  | .topology_spread => c.topology_spread.enabled

/-! ## Policy output and JSON Patch -/

/-- RFC 6902 operation; only `add` is emitted.  The path is kept as its
token sequence (the code builds a `PointerBuf` from tokens). -/
inductive PatchOperation where
  | add (pathTokens : List String) (value : Json) : PatchOperation

structure PolicyOutput where
  violations : List String
  patches : List PatchOperation

/-- `PolicyOutput::allowed()`. -/
def PolicyOutput.allowedOut : PolicyOutput :=
  { violations := [], patches := [] }

/-- `CompiledLabel` from `policies/labels.rs`: the key, and optionally the
pattern's source text paired with the compiled regex's match function
(the regex engine is external). -/
structure CompiledLabel where
  key : String
  pattern : Option (String × (String → Bool))

/-! ## Quantity parsers (`src/policies/resource_limits.rs`) -/

/-- Value of a digit string (most significant first). -/
def natOfDigits (ds : List Char) : Nat :=
  ds.foldl (fun a c => a * 10 + (c.toNat - '0'.toNat)) 0

/-- An exact decimal value `mantissa / 10 ^ scale`. -/
structure DecValue where
  mantissa : Int
  scale : Nat

/-- Decimal-string parse modelling `str::parse::<f64>` on the plain
`[sign] digits [. digits]` forms the quantity fields use; the value is
kept exact (the quantities checked below are exactly representable in
an f64, so float rounding never shows). -/
def parseDecimal (s : String) : Option DecValue :=
  let cs := s.toList
  let sgnBody : Int × List Char :=
    match cs with
    | '-' :: t => (-1, t)
    | '+' :: t => (1, t)
    | _ => (1, cs)
  match sgnBody.2.splitOn '.' with
  | [ip] =>
      if ip ≠ [] ∧ ip.all Char.isDigit then
        some { mantissa := sgnBody.1 * natOfDigits ip, scale := 0 }
      else none
  | [ip, fp] =>
      if ip ++ fp ≠ [] ∧ (ip ++ fp).all Char.isDigit then
        some { mantissa := sgnBody.1 * natOfDigits (ip ++ fp),
               scale := fp.length }
      else none
  | _ => none

/-- Rust's saturating `as u64` cast from a float, on the exact decimal:
truncates toward zero, negatives to 0, clamped at the u64 maximum. -/
def truncToU64 (v : DecValue) : Nat :=
  if v.mantissa < 0 then 0
  else min (v.mantissa.toNat / 10 ^ v.scale) (2 ^ 64 - 1)

/-- Rust `str::strip_suffix` at the character level: the input without
the suffix when it ends with it, else `none`. -/
def stripSfx (cs sfx : List Char) : Option (List Char) :=
  if sfx.reverse.isPrefixOf cs.reverse then
    some ((cs.reverse.drop sfx.length).reverse)
  else none

/-- `parse_cpu_millicores`: `m`-suffixed values are millicores, plain
values are cores scaled by 1000; both truncated to integers. -/
def parse_cpu_millicores (value : String) : Option Nat :=
  match stripSfx value.toList ['m'] with
  | some millis => (parseDecimal (String.mk millis)).map truncToU64
  | none =>
      (parseDecimal value).map (fun v =>
        truncToU64 { mantissa := v.mantissa * 1000, scale := v.scale })

/-- `str::parse::<u64>`: optional `+`, non-empty digits, u64 range. -/
def parseU64 (s : String) : Option Nat :=
  let cs := s.toList
  let body := match cs with
    | '+' :: t => t
    | _ => cs
  if body ≠ [] ∧ body.all Char.isDigit then
    let n := natOfDigits body
    if n < 2 ^ 64 then some n else none
  else none

/-- `parse_memory_bytes`: suffix-dispatched with the source's check
order `Gi`, `Mi`, `Ki`, `G`, `M`, `k`, then bare bytes. -/
def parse_memory_bytes (value : String) : Option Nat :=
  match stripSfx value.toList ['G', 'i'] with
  | some n => (parseU64 (String.mk n)).map (fun v => v * 1024 * 1024 * 1024)
  | none =>
  match stripSfx value.toList ['M', 'i'] with
  | some n => (parseU64 (String.mk n)).map (fun v => v * 1024 * 1024)
  | none =>
  match stripSfx value.toList ['K', 'i'] with
  | some n => (parseU64 (String.mk n)).map (fun v => v * 1024)
  | none =>
  match stripSfx value.toList ['G'] with
  | some n => (parseU64 (String.mk n)).map (fun v => v * 1000000000)
  | none =>
  match stripSfx value.toList ['M'] with
  | some n => (parseU64 (String.mk n)).map (fun v => v * 1000000)
  | none =>
  match stripSfx value.toList ['k'] with
  | some n => (parseU64 (String.mk n)).map (fun v => v * 1000)
  | none => parseU64 value

/-! ## Resource limits policy (`src/policies/resource_limits.rs`) -/

/-- `resources.and_then(get key).and_then(as_object).is_some_and(non-empty)`:
the `has_requests` / `has_limits` test. -/
def sectionHasEntries (resources : Option Json) (key : String) : Bool :=
  match (resources.bind (fun r => r.get key)).bind Json.asObject with
  | some m => !m.isEmpty
  | none => false

/-- The `missing` word of the missing-resources violation (the `(true,
true)` arm is unreachable under the guard in the caller). -/
def missingText : Bool → Bool → String
  | false, false => "requests and limits"
  | false, true => "requests"
  | true, false => "limits"
  | true, true => ""

/-- The per-section maximum-CPU check: read `resources.<sect>.cpu` as a
string, parse, compare; non-strings and unparseable values are skipped. -/
def cpuSectionCheck (maxCpu : Nat) (name : String) (resources : Option Json)
    (sect : String) : List String :=
  match ((resources.bind (fun r => r.get sect)).bind
      (fun s => s.get "cpu")).bind Json.asStr with
  | some cpuStr =>
      match parse_cpu_millicores cpuStr with
      | some cpuM =>
          if cpuM > maxCpu then
            ["container '" ++ name ++ "' " ++ sect ++ " cpu '" ++ cpuStr ++
              "' (" ++ toString cpuM ++ "m) exceeds maximum allowed " ++
              toString maxCpu ++ "m"]
          else []
      | none => []
  | none => []

/-- The per-section maximum-memory check, in bytes computed from
`max_memory_mb * 1024 * 1024`. -/
def memSectionCheck (maxMemMb : Nat) (name : String) (resources : Option Json)
    (sect : String) : List String :=
  let maxMemBytes := maxMemMb * 1024 * 1024
  match ((resources.bind (fun r => r.get sect)).bind
      (fun s => s.get "memory")).bind Json.asStr with
  | some memStr =>
      match parse_memory_bytes memStr with
      | some memBytes =>
          if memBytes > maxMemBytes then
            ["container '" ++ name ++ "' " ++ sect ++ " memory '" ++ memStr ++
              "' (" ++ toString (memBytes / (1024 * 1024)) ++
              " Mi) exceeds maximum allowed " ++ toString maxMemMb ++ " Mi"]
          else []
      | none => []
  | none => []

/-- The violations the resource-limits loop body pushes for one
container, in source order: missing requests/limits, CPU maxima, memory
maxima. -/
def containerChecksRL (config : ResourceLimitsPolicy) (mutating : Bool)
    (c : Json) : List String :=
  let name := containerName c
  let resources := c.get "resources"
  let hasRequests := sectionHasEntries resources "requests"
  let hasLimits := sectionHasEntries resources "limits"
  let missing :=
    if (!hasRequests || !hasLimits) && !(mutating && config.inject_defaults) then
      ["container '" ++ name ++ "' missing resource " ++
        missingText hasRequests hasLimits]
    else []
  let cpu :=
    match config.max_cpu_millicores with
    | some maxCpu => (["requests", "limits"].map (cpuSectionCheck maxCpu name resources)).flatten
    | none => []
  let mem :=
    match config.max_memory_mb with
    | some maxMem => (["requests", "limits"].map (memSectionCheck maxMem name resources)).flatten
    | none => []
  missing ++ cpu ++ mem

/-- Is `resources` a present, non-empty object (the `has_resources`
test of `generate_resource_patches`)? -/
def resourcesNonempty (r : Json) : Bool :=
  match r.asObject with
  | some m => !m.isEmpty
  | none => false

/-- The whole-resources default injected when `resources` is absent or
empty. -/
def defaultResourcesValue (config : ResourceLimitsPolicy) : Json :=
  Json.obj [
    ("requests", Json.obj [
      ("cpu", Json.str config.default_cpu_request),
      ("memory", Json.str config.default_memory_request)]),
    ("limits", Json.obj [
      ("cpu", Json.str config.default_cpu_limit),
      ("memory", Json.str config.default_memory_limit)])]

/-- `generate_resource_patches`: the minimal `add` operations filling in
missing requests/limits defaults, never overwriting existing values. -/
def generateResourcePatches (config : ResourceLimitsPolicy) (c : Json)
    (pfx : String) (idx : Nat) : List PatchOperation :=
  let base := pfx.splitOn "/" ++ ["containers", toString idx, "resources"]
  match c.get "resources" with
  | none => [.add base (defaultResourcesValue config)]
  | some r =>
    if !resourcesNonempty r then
      [.add base (defaultResourcesValue config)]
    else
      (match r.get "requests" with
       | none => [.add (base ++ ["requests"]) (Json.obj [
           ("cpu", Json.str config.default_cpu_request),
           ("memory", Json.str config.default_memory_request)])]
       | some requests =>
         (if (requests.get "cpu").isNone then
            [.add (base ++ ["requests", "cpu"]) (Json.str config.default_cpu_request)]
          else []) ++
         (if (requests.get "memory").isNone then
            [.add (base ++ ["requests", "memory"]) (Json.str config.default_memory_request)]
          else [])) ++
      (match r.get "limits" with
       | none => [.add (base ++ ["limits"]) (Json.obj [
           ("cpu", Json.str config.default_cpu_limit),
           ("memory", Json.str config.default_memory_limit)])]
       | some limits =>
         (if (limits.get "cpu").isNone then
            [.add (base ++ ["limits", "cpu"]) (Json.str config.default_cpu_limit)]
          else []) ++
         (if (limits.get "memory").isNone then
            [.add (base ++ ["limits", "memory"]) (Json.str config.default_memory_limit)]
          else []))
  
/-- `resource_limits::evaluate`. -/
def resourceLimitsEvaluate (config : ResourceLimitsPolicy)
    (request : AdmissionRequest) (mutating : Bool) : PolicyOutput :=
  match request.object with
  | none => PolicyOutput.allowedOut
  | some obj =>
    match getPodSpec obj.data request.kind with
    | none => PolicyOutput.allowedOut
    | some podSpec =>
      let containers := getContainers podSpec
      let pfx := specPrefix request.kind
      { violations :=
          (containers.map (fun p => containerChecksRL config mutating p.2)).flatten,
        patches :=
          if config.inject_defaults then
            (containers.map (fun p => generateResourcePatches config p.2 pfx p.1)).flatten
          else [] }

/-! ## Image registry policy (`src/policies/image_registry.rs`) -/

/-- `registry_matches`: exact equality, or the allowed entry followed
immediately by a `/` (byte-indexed in the source; character-indexed
here over the character-list model of strings). -/
def registryMatches (registry allowed : List Char) : Bool :=
  if registry = allowed then true
  else if allowed.isPrefixOf registry then
    registry[allowed.length]? == some '/'
  else false

/-- Index of the last occurrence of `c` (Rust `rfind`). -/
def rfindIdx (cs : List Char) (c : Char) : Option Nat :=
  match cs.reverse.findIdx? (fun x => x == c) with
  | some j => some (cs.length - 1 - j)
  | none => none

structure ImageRef where
  registry : List Char
  tag : List Char
  hasDigest : Bool

/-- `extract_registry`: implicit `docker.io` registries versus explicit
hosts (containing `.` or `:`, or `localhost`). -/
def extractRegistry (namePart : List Char) : List Char :=
  match namePart.findIdx? (fun x => x == '/') with
  | some slashPos =>
      let first := namePart.take slashPos
      if first.contains '.' || first.contains ':' || first = "localhost".toList then
        match rfindIdx namePart '/' with
        | some pos => namePart.take pos
        | none => namePart
      else "docker.io/".toList ++ first
  | none => "docker.io/library".toList

/-- `parse_image_ref`: strip any digest, split name and tag around the
colon after the last slash (or the first colon when there is no slash),
then extract the registry. -/
def parseImageRef (image : List Char) : ImageRef :=
  let hasDigest := image.contains '@'
  let imageNoDigest := image.takeWhile (fun x => x ≠ '@')
  let nameTag : List Char × List Char :=
    match rfindIdx imageNoDigest '/' with
    | some lastSlash =>
        match (imageNoDigest.drop lastSlash).findIdx? (fun x => x == ':') with
        | some off =>
            (imageNoDigest.take (lastSlash + off),
             imageNoDigest.drop (lastSlash + off + 1))
        | none => (imageNoDigest, [])
    | none =>
        match imageNoDigest.findIdx? (fun x => x == ':') with
        | some colonPos =>
            (imageNoDigest.take colonPos, imageNoDigest.drop (colonPos + 1))
        | none => (imageNoDigest, [])
  { registry := extractRegistry nameTag.1, tag := nameTag.2,
    hasDigest := hasDigest }

/-- The violations the image-registry loop body pushes for one
container: missing image, registry allow-list, latest-tag rule. -/
def containerChecksIR (config : AllowedRegistriesPolicy) (c : Json) : List String :=
  let name := containerName c
  match (c.get "image").bind Json.asStr with
  | none => ["container '" ++ name ++ "' has no image specified"]
  | some image =>
    let ref := parseImageRef image.toList
    let registryAllowed :=
      config.registries.any (fun allowed => registryMatches ref.registry allowed.toList)
    let registryViolations :=
      if !registryAllowed then
        ["container '" ++ name ++ "' image '" ++ image ++ "' uses registry '" ++
          String.mk ref.registry ++ "' which is not in the allowed list [" ++
          String.intercalate ", " config.registries ++ "]"]
      else []
    let latestViolations :=
      if !config.allow_latest_tag then
        if ref.tag = "latest".toList ∨ (ref.tag = [] ∧ ref.hasDigest = false) then
          let tagDisplay :=
            if ref.tag = [] then "<none> (defaults to latest)" else "latest"
          ["container '" ++ name ++ "' image '" ++ image ++ "' uses tag '" ++
            tagDisplay ++ "'"]
        else []
      else []
    registryViolations ++ latestViolations

/-- `image_registry::evaluate`; never emits patches. -/
def imageRegistryEvaluate (config : AllowedRegistriesPolicy)
    (request : AdmissionRequest) : PolicyOutput :=
  match request.object with
  | none => PolicyOutput.allowedOut
  | some obj =>
    match getPodSpec obj.data request.kind with
    | none => PolicyOutput.allowedOut
    | some podSpec =>
      { violations :=
          ((getContainers podSpec).map (fun p => containerChecksIR config p.2)).flatten,
        patches := [] }

/-! ## Required labels policy (`src/policies/labels.rs`) -/

/-- The violations one compiled entry contributes. -/
def labelCheck (kind rname : String) (labelMap : Option (List (String × String)))
    (cl : CompiledLabel) : List String :=
  match labelMap.bind (fun l => lookupStr l cl.key) with
  | none =>
      ["missing required label '" ++ cl.key ++ "' on " ++ kind ++ " '" ++
        rname ++ "'"]
  | some value =>
      match cl.pattern with
      | some pat =>
          if !pat.2 value then
            ["label '" ++ cl.key ++ "' on " ++ kind ++ " '" ++ rname ++
              "' has value '" ++ value ++ "' which does not match required pattern '" ++
              pat.1 ++ "'"]
          else []
      | none => []

/-- `labels::evaluate`: checks `object.metadata.labels` against each
compiled entry; consults neither the workload kind nor the pod spec, and
never emits patches. -/
def labelsEvaluate (compiledLabels : List CompiledLabel)
    (request : AdmissionRequest) : PolicyOutput :=
  match request.object with
  | none => PolicyOutput.allowedOut
  | some obj =>
    let rname := resourceName request obj
    { violations :=
        (compiledLabels.map (labelCheck request.kind rname obj.metadataLabels)).flatten,
      patches := [] }

/-! ## Topology spread policy (`src/policies/topology_spread.rs`) -/

/-- The violation one constraint element contributes: only elements
whose `maxSkew` reads as an i64 exceeding the configured maximum. -/
def constraintCheck (config : TopologySpreadPolicy) (kind rname : String)
    (i : Nat) (c : Json) : List String :=
  match (c.get "maxSkew").bind Json.asI64 with
  | some maxSkew =>
      if maxSkew > config.max_skew then
        let topologyKey := ((c.get "topologyKey").bind Json.asStr).getD "<unset>"
        ["topologySpreadConstraints[" ++ toString i ++ "] on " ++ kind ++
          " '" ++ rname ++ "' has maxSkew=" ++ toString maxSkew ++
          " (topologyKey='" ++ topologyKey ++ "') exceeding maximum " ++
          toString config.max_skew]
      else []
  | none => []

/-- `get_pod_labels`: the Pod's own metadata labels, or for other kinds
`spec.template.metadata.labels`; empty object when absent or empty. -/
def getPodLabels (object : DynamicObject) (kind : String) : Json :=
  if kind = "Pod" then
    match object.metadataLabels with
    | some ls =>
        if !ls.isEmpty then
          Json.obj (ls.map (fun p => (p.1, Json.str p.2)))
        else Json.obj []
    | none => Json.obj []
  else
    ((((object.data.get "spec").bind (fun s => s.get "template")).bind
      (fun t => t.get "metadata")).bind (fun m => m.get "labels")).getD (Json.obj [])

/-- `build_label_selector`. -/
def buildLabelSelector (object : DynamicObject) (kind : String) : Json :=
  Json.obj [("matchLabels", getPodLabels object kind)]

/-- The absent-or-empty branch of the topology-spread policy: a missing
violation unless mutation will inject, plus the injected` add` when
configured. -/
def topologyMissingBranch (config : TopologySpreadPolicy)
    (object : DynamicObject) (kind rname pfx : String) (mutating : Bool) :
    PolicyOutput :=
  { violations :=
      if !(mutating && config.inject_if_missing) then
        [kind ++ " '" ++ rname ++ "' has no topologySpreadConstraints"]
      else [],
    patches :=
      if config.inject_if_missing then
        [.add (pfx.splitOn "/" ++ ["topologySpreadConstraints"])
          (Json.arr [Json.obj [
            ("maxSkew", Json.num config.max_skew),
            ("topologyKey", Json.str config.topology_key),
            ("whenUnsatisfiable", Json.str config.when_unsatisfiable),
            ("labelSelector", buildLabelSelector object kind)]])]
      else [] }

/-- `topology_spread::evaluate`. -/
def topologySpreadEvaluate (config : TopologySpreadPolicy)
    (request : AdmissionRequest) (mutating : Bool) : PolicyOutput :=
  match request.object with
  | none => PolicyOutput.allowedOut
  | some obj =>
    match getPodSpec obj.data request.kind with
    | none => PolicyOutput.allowedOut
    | some podSpec =>
      let rname := resourceName request obj
      let pfx := specPrefix request.kind
      match (podSpec.get "topologySpreadConstraints").bind Json.asArray with
      | some constraints =>
          if !constraints.isEmpty then
            { violations :=
                (constraints.enum.map
                  (fun p => constraintCheck config request.kind rname p.1 p.2)).flatten,
              patches := [] }
          else topologyMissingBranch config obj request.kind rname pfx mutating
      | none => topologyMissingBranch config obj request.kind rname pfx mutating

/-! ## Engine (`src/engine.rs`) -/

/-- `PolicyResult` (timing omitted: `Duration` is wall-clock). -/
structure PolicyResult where
  policy_name : PolicyName
  allowed : Bool
  message : Option String
  warnings : List String
  patches : List PatchOperation

/-- `PolicyEngine`: the immutable configuration plus the labels compiled
at construction (regex compilation is external, so the compiled entries
are carried directly). -/
structure PolicyEngine where
  config : PoliciesConfig
  compiledLabels : List CompiledLabel

/-- `PolicyEngine::to_result`: drop patches on the validating path, then
apply enforce/warn mode translation. -/
def PolicyEngine.toResult (eng : PolicyEngine) (name : PolicyName)
    (output : PolicyOutput) (includePatches : Bool) : PolicyResult :=
  let patches := if includePatches then output.patches else []
  match eng.config.policyMode name with
  | .enforce =>
      { policy_name := name,
        allowed := output.violations.isEmpty,
        message :=
          if output.violations.isEmpty then none
          else some (String.intercalate "; " output.violations),
        warnings := [],
        patches := patches }
  | .warn =>
      { policy_name := name,
        allowed := true,
        message := none,
        warnings := output.violations.map (fun v => name.toStr ++ ": " ++ v),
        patches := patches }

/-- `PolicyEngine::evaluate_all`: fixed iteration order, disabled
policies skipped, each output translated by `toResult`. -/
def PolicyEngine.evaluateAll (eng : PolicyEngine) (request : AdmissionRequest)
    (includePatches : Bool) : List PolicyResult :=
  (PolicyName.ALL.filter eng.config.policyEnabled).map (fun name =>
    let output :=
      match name with
      | .resource_limits =>
          resourceLimitsEvaluate eng.config.resource_limits request includePatches
      | .image_registry =>
          imageRegistryEvaluate eng.config.image_registry request
      | .labels => labelsEvaluate eng.compiledLabels request
      | .topology_spread =>
          topologySpreadEvaluate eng.config.topology_spread request includePatches
    eng.toResult name output includePatches)

/-- `PolicyEngine::evaluate_validate`. -/
def PolicyEngine.evaluateValidate (eng : PolicyEngine)
    (request : AdmissionRequest) : List PolicyResult :=
  eng.evaluateAll request false

/-- `PolicyEngine::evaluate_mutate`. -/
def PolicyEngine.evaluateMutate (eng : PolicyEngine)
    (request : AdmissionRequest) : List PolicyResult :=
  eng.evaluateAll request true

/-! ## Admission pipeline (`src/handlers.rs`) -/

inductive WebhookType where
  | validate : WebhookType
  | mutate : WebhookType
deriving DecidableEq

/-- The response fields `build_response` populates (uid and the HTTP
envelope are external; `warnings` is the flattened option). -/
structure AdmissionResponse where
  allowed : Bool
  message : Option String
  patch : Option (List PatchOperation)
  warnings : List String

/-- The denial entries collected by the `build_response` loop, in result
order: `"<policy_name>: <msg-or-denied>"` for each disallowed result. -/
def deniedMessages (results : List PolicyResult) : List String :=
  (results.filter (fun r => !r.allowed)).map
    (fun r => r.policy_name.toStr ++ ": " ++ (r.message.getD "denied"))

/-- `build_response`: aggregate warnings, patches (mutate only) and
denials, then deny-if-any, else attach patches, else plain allow.
Patch serialization over the `Json` model cannot fail, so the
serialization-failure fallback branch is unreachable here. -/
def buildResponse (results : List PolicyResult) (webhookType : WebhookType) :
    AdmissionResponse :=
  let warnings := (results.map (fun r => r.warnings)).flatten
  let allPatches :=
    if webhookType = WebhookType.mutate then
      (results.map (fun r => r.patches)).flatten
    else []
  let denied := deniedMessages results
  let resp : AdmissionResponse :=
    if !denied.isEmpty then
      { allowed := false, message := some (String.intercalate "; " denied),
        patch := none, warnings := [] }
    else if !allPatches.isEmpty then
      { allowed := true, message := none, patch := some allPatches,
        warnings := [] }
    else
      { allowed := true, message := none, patch := none, warnings := [] }
  { resp with warnings := resp.warnings ++ warnings }

/-- A container already carrying every value the resource-limits
defaults would inject: `resources.requests.cpu/memory` and
`resources.limits.cpu/memory` all present. -/
def containerFullyPopulated (c : Json) : Bool :=
  ((((c.get "resources").bind (fun r => r.get "requests")).bind
      (fun q => q.get "cpu")).isSome &&
   (((c.get "resources").bind (fun r => r.get "requests")).bind
      (fun q => q.get "memory")).isSome) &&
  ((((c.get "resources").bind (fun r => r.get "limits")).bind
      (fun q => q.get "cpu")).isSome &&
   (((c.get "resources").bind (fun r => r.get "limits")).bind
      (fun q => q.get "memory")).isSome)

/-! ## Concrete fixtures used by witnesses and counterexamples -/

/-- A representative enforce-mode configuration (values from the
config defaults in `src/config.rs`). -/
def cfgRL0 : ResourceLimitsPolicy :=
  { enabled := true, mode := .enforce, max_cpu_millicores := some 1000,
    max_memory_mb := some 512, inject_defaults := true,
    default_cpu_request := "100m", default_cpu_limit := "500m",
    default_memory_request := "128Mi", default_memory_limit := "512Mi" }

def cfgIR0 : AllowedRegistriesPolicy :=
  { enabled := true, mode := .enforce, registries := ["gcr.io"],
    allow_latest_tag := false }

def cfgLB0 : RequiredLabelsPolicy :=
  { enabled := true, mode := .enforce,
    labels := [{ key := "team", pattern := none }] }

def cfgTS0 : TopologySpreadPolicy :=
  { enabled := true, mode := .enforce, max_skew := 1,
    topology_key := "topology.kubernetes.io/zone",
    when_unsatisfiable := "DoNotSchedule", inject_if_missing := true }

def cfg0 : PoliciesConfig :=
  { resource_limits := cfgRL0, image_registry := cfgIR0,
    labels := cfgLB0, topology_spread := cfgTS0 }

def cls0 : List CompiledLabel := [{ key := "team", pattern := none }]

def eng0 : PolicyEngine := { config := cfg0, compiledLabels := cls0 }

/-- The labels policy switched to warn mode. -/
def cfgLBW : RequiredLabelsPolicy :=
  { enabled := true, mode := .warn,
    labels := [{ key := "team", pattern := none }] }

def cfgW : PoliciesConfig :=
  { resource_limits := cfgRL0, image_registry := cfgIR0,
    labels := cfgLBW, topology_spread := cfgTS0 }

def engW : PolicyEngine := { config := cfgW, compiledLabels := cls0 }

/-- An object with no labels and an empty payload. -/
def objEmpty : DynamicObject :=
  { metadataLabels := none, metadataGenerateName := none,
    data := Json.obj [] }

/-- A request over an unknown kind whose object carries no labels. -/
def reqC1 : AdmissionRequest :=
  { uid := "u", name := "x", kind := "ConfigMap", object := some objEmpty }

/-- A sample policy output with violations. -/
def out0 : PolicyOutput :=
  { violations := ["v1", "v2"], patches := [] }

/-- A pod payload that denies under `cfg0`: latest tag, missing `team`
label, no resource sections, no topology constraints. -/
def objDeny : DynamicObject :=
  { metadataLabels := none, metadataGenerateName := none,
    data := Json.obj [("spec", Json.obj [("containers",
      Json.arr [Json.obj [("name", Json.str "c"),
                          ("image", Json.str "nginx:latest")]])])] }

def reqDeny : AdmissionRequest :=
  { uid := "u2", name := "p", kind := "Pod", object := some objDeny }

/-- A pod payload already fully patched: populated requests/limits and a
non-empty `topologySpreadConstraints` with `maxSkew` = 1. -/
def objPatched : DynamicObject :=
  { metadataLabels := some [("team", "a")], metadataGenerateName := none,
    data := Json.obj [("spec", Json.obj [
      ("containers", Json.arr [Json.obj [
        ("name", Json.str "c"),
        ("image", Json.str "gcr.io/p/i:v1"),
        ("resources", Json.obj [
          ("requests", Json.obj [("cpu", Json.str "100m"),
                                 ("memory", Json.str "128Mi")]),
          ("limits", Json.obj [("cpu", Json.str "500m"),
                               ("memory", Json.str "256Mi")])])]]),
      ("topologySpreadConstraints", Json.arr [Json.obj [
        ("maxSkew", Json.num 1),
        ("topologyKey", Json.str "topology.kubernetes.io/zone")]])])] }

def reqPatched : AdmissionRequest :=
  { uid := "u3", name := "p", kind := "Pod", object := some objPatched }

/-- Request resources with non-string cpu/memory quantities. -/
def resourcesNum : Option Json :=
  some (Json.obj [("requests", Json.obj [("cpu", Json.num 99999),
    ("memory", Json.num 999999999999)])])

/-- A pod payload whose only topology constraint has a string maxSkew. -/
def objBadSkew : DynamicObject :=
  { metadataLabels := none, metadataGenerateName := none,
    data := Json.obj [("spec", Json.obj [
      ("topologySpreadConstraints", Json.arr [Json.obj [
        ("maxSkew", Json.str "many")]])])] }

def reqBadSkew : AdmissionRequest :=
  { uid := "u4", name := "p", kind := "Pod", object := some objBadSkew }

/-! ## Claim theorems -/

/-- **C6** — The CPU quantity parser satisfies `cpu("1") = cpu("1000m")
= 1000` and `cpu("0.5") = 500`, and the memory quantity parser satisfies
`mem("1Gi") = 1073741824`, `mem("1G") = 1000000000` and
`mem("1024") = 1024`. -/
theorem c6_quantity_parser_values :
    parse_cpu_millicores "1" = some 1000 ∧
    parse_cpu_millicores "1000m" = some 1000 ∧
    parse_cpu_millicores "0.5" = some 500 ∧
    parse_memory_bytes "1Gi" = some 1073741824 ∧
    parse_memory_bytes "1G" = some 1000000000 ∧
    parse_memory_bytes "1024" = some 1024 := by
  refine ⟨by decide, by decide, by decide, by decide, by decide, by decide⟩

/-- **C7** — `registry_matches(r, allowed)` is true iff `r` equals
`allowed` or `r` starts with `allowed` followed immediately by `/`. -/
theorem c7_registry_matches_spec (r allowed : List Char) :
    registryMatches r allowed = true ↔
      r = allowed ∨ (allowed ++ ['/']) <+: r := by
  unfold registryMatches
  by_cases he : r = allowed
  · simp [he]
  · rw [if_neg he]
    by_cases hp : allowed.isPrefixOf r
    · rw [if_pos hp]
      rw [List.isPrefixOf_iff_prefix] at hp
      obtain ⟨t, rfl⟩ := hp
      cases t with
      | nil => exact absurd (by simp) he
      | cons c ts =>
          rw [List.getElem?_append_right (le_refl _), Nat.sub_self]
          constructor
          · intro h
            have hc : c = '/' := by simpa using beq_iff_eq.mp h
            subst hc
            exact Or.inr ((List.prefix_append_right_inj allowed).mpr ⟨ts, rfl⟩)
          · rintro (h | h)
            · exact absurd h he
            · obtain ⟨u, hu⟩ := (List.prefix_append_right_inj allowed).mp h
              cases hu
              simp
    · rw [if_neg hp]
      simp only [Bool.false_eq_true, false_iff]
      rintro (h | h)
      · exact he h
      · exact hp (List.isPrefixOf_iff_prefix.mpr
          ((List.prefix_append allowed ['/']).trans h))

/-- Witness for C7: the spec's concrete instances, via the theorem. -/
theorem c7_registry_matches_spec_witness :
    registryMatches "gcr.io/p".toList "gcr.io".toList = true ∧
    registryMatches "gcr.io.evil.com".toList "gcr.io".toList = false := by
  constructor
  · exact (c7_registry_matches_spec "gcr.io/p".toList "gcr.io".toList).mpr
      (Or.inr (by decide))
  · cases hb : registryMatches "gcr.io.evil.com".toList "gcr.io".toList
    · rfl
    · rcases (c7_registry_matches_spec "gcr.io.evil.com".toList
        "gcr.io".toList).mp hb with h | h
      · exact absurd h (by decide)
      · exact absurd h (by decide)

/-- **C8** — `spec_prefix` returns `"spec/template/spec"` for every kind
string other than `"Pod"` and `"CronJob"`, including kinds outside the
§4.1 table. -/
theorem c8_spec_prefix_default (kind : String)
    (hpod : kind ≠ "Pod") (hcron : kind ≠ "CronJob") :
    specPrefix kind = "spec/template/spec" := by
  simp [specPrefix, hpod, hcron]

/-- Witness for C8 at the unknown kind `"ConfigMap"`. -/
theorem c8_spec_prefix_default_witness :
    specPrefix "ConfigMap" = "spec/template/spec" :=
  c8_spec_prefix_default "ConfigMap" (by decide) (by decide)

/-- The patches of a translated result: kept on the mutating path,
dropped on the validating path, whatever the mode. -/
theorem toResult_patches (eng : PolicyEngine) (name : PolicyName)
    (output : PolicyOutput) (includePatches : Bool) :
    (eng.toResult name output includePatches).patches =
      if includePatches then output.patches else [] := by
  unfold PolicyEngine.toResult
  cases eng.config.policyMode name <;> rfl

/-- **C2** — Every result of `evaluate_validate` has empty patches, and
`build_response` on the validating path never attaches a patch,
whatever results it is given. -/
theorem c2_validate_no_patches (eng : PolicyEngine) (req : AdmissionRequest) :
    (((eng.evaluateValidate req).all fun r => r.patches.isEmpty) = true) ∧
    (∀ results : List PolicyResult,
      (buildResponse results WebhookType.validate).patch = none) := by
  constructor
  · rw [List.all_eq_true]
    intro r hr
    unfold PolicyEngine.evaluateValidate PolicyEngine.evaluateAll at hr
    obtain ⟨name, -, rfl⟩ := List.mem_map.mp hr
    rw [List.isEmpty_iff, toResult_patches]
    rfl
  · intro results
    unfold buildResponse
    cases hd : (deniedMessages results).isEmpty <;> simp [hd]

/-- **C3** — Mode translation: in enforce mode `allowed` is emptiness of
the violations, `message` is the `"; "`-join exactly when violations are
non-empty, and `warnings` is empty; in warn mode `allowed` is true,
`message` is `none`, and `warnings` prefixes each violation with the
policy name. -/
theorem c3_mode_translation (eng : PolicyEngine) (name : PolicyName)
    (output : PolicyOutput) (includePatches : Bool) :
    (eng.config.policyMode name = PolicyMode.enforce →
      (eng.toResult name output includePatches).allowed =
          output.violations.isEmpty ∧
      (eng.toResult name output includePatches).message =
        (if output.violations.isEmpty then none
         else some (String.intercalate "; " output.violations)) ∧
      (eng.toResult name output includePatches).warnings = []) ∧
    (eng.config.policyMode name = PolicyMode.warn →
      (eng.toResult name output includePatches).allowed = true ∧
      (eng.toResult name output includePatches).message = none ∧
      (eng.toResult name output includePatches).warnings =
        output.violations.map (fun v => name.toStr ++ ": " ++ v)) := by
  constructor <;> intro h <;> simp [PolicyEngine.toResult, h]

/-- Witness for C3: one enforce-mode and one warn-mode engine at a
concrete output with two violations. -/
theorem c3_mode_translation_witness :
    ((eng0.toResult .labels out0 true).allowed = out0.violations.isEmpty ∧
     (eng0.toResult .labels out0 true).message =
       (if out0.violations.isEmpty then none
        else some (String.intercalate "; " out0.violations)) ∧
     (eng0.toResult .labels out0 true).warnings = []) ∧
    ((engW.toResult .labels out0 true).allowed = true ∧
     (engW.toResult .labels out0 true).message = none ∧
     (engW.toResult .labels out0 true).warnings =
       out0.violations.map (fun v => PolicyName.labels.toStr ++ ": " ++ v)) :=
  ⟨(c3_mode_translation eng0 .labels out0 true).1 rfl,
   (c3_mode_translation engW .labels out0 true).2 rfl⟩

/-- **C4** — If any policy result is disallowed, the response denies:
`allowed=false`, the status message is the denied entries
`"<policy_name>: <msg-or-denied>"` joined with `"; "` in result
(= policy-declared) order, and no patch is attached, on either webhook. -/
theorem c4_denial_aggregation (eng : PolicyEngine) (req : AdmissionRequest)
    (includePatches : Bool) (wt : WebhookType)
    (h : ((eng.evaluateAll req includePatches).any fun r => !r.allowed) = true) :
    (buildResponse (eng.evaluateAll req includePatches) wt).allowed = false ∧
    (buildResponse (eng.evaluateAll req includePatches) wt).message =
      some (String.intercalate "; "
        (deniedMessages (eng.evaluateAll req includePatches))) ∧
    (buildResponse (eng.evaluateAll req includePatches) wt).patch = none := by
  have hne : deniedMessages (eng.evaluateAll req includePatches) ≠ [] := by
    rw [List.any_eq_true] at h
    obtain ⟨r, hr, hra⟩ := h
    exact List.ne_nil_of_mem
      (List.mem_map_of_mem _ (List.mem_filter.mpr ⟨hr, hra⟩))
  unfold buildResponse
  cases hd : (deniedMessages (eng.evaluateAll req includePatches)).isEmpty
  · simp [hd]
  · exact absurd (List.isEmpty_iff.mp hd) hne

/-- Witness for C4: a Pod under `cfg0` denied by the image-registry and
labels policies, on the mutating webhook. -/
theorem c4_denial_aggregation_witness :
    (buildResponse (eng0.evaluateAll reqDeny true) WebhookType.mutate).allowed
        = false ∧
    (buildResponse (eng0.evaluateAll reqDeny true) WebhookType.mutate).message
        = some (String.intercalate "; "
            (deniedMessages (eng0.evaluateAll reqDeny true))) ∧
    (buildResponse (eng0.evaluateAll reqDeny true) WebhookType.mutate).patch
        = none :=
  c4_denial_aggregation eng0 reqDeny true WebhookType.mutate (by decide)

/-- **C9** — When `resources.<sect>.cpu` (resp. `.memory`) is present
but not a JSON string, the maximum check for that section emits no
violation, however large the numeric value. -/
theorem c9_nonstring_quantities_skipped (maxCpu maxMem : Nat)
    (name sect : String) (resources : Option Json) :
    (∀ j : Json,
      (resources.bind (fun r => r.get sect)).bind (fun s => s.get "cpu")
          = some j →
      j.asStr = none →
      cpuSectionCheck maxCpu name resources sect = []) ∧
    (∀ j : Json,
      (resources.bind (fun r => r.get sect)).bind (fun s => s.get "memory")
          = some j →
      j.asStr = none →
      memSectionCheck maxMem name resources sect = []) := by
  constructor
  · intro j hj hs
    unfold cpuSectionCheck
    rw [hj, Option.some_bind, hs]
  · intro j hj hs
    unfold memSectionCheck
    rw [hj, Option.some_bind, hs]

/-- Witness for C9: numeric cpu/memory quantities far above the
maxima yield no violation. -/
theorem c9_nonstring_quantities_skipped_witness :
    cpuSectionCheck 1000 "c" resourcesNum "requests" = [] ∧
    memSectionCheck 512 "c" resourcesNum "requests" = [] :=
  ⟨(c9_nonstring_quantities_skipped 1000 512 "c" "requests" resourcesNum).1
      (Json.num 99999) rfl rfl,
   (c9_nonstring_quantities_skipped 1000 512 "c" "requests" resourcesNum).2
      (Json.num 999999999999) rfl rfl⟩

/-- **C10** — With a present, non-empty `topologySpreadConstraints`
array, the topology-spread policy emits no patch; and an element whose
`maxSkew` is absent or not an i64 contributes no violation, whatever the
configured maximum. -/
theorem c10_bad_maxskew_skipped (config : TopologySpreadPolicy)
    (req : AdmissionRequest) (obj : DynamicObject) (podSpec : Json)
    (cs : List Json) (mutating : Bool)
    (hobj : req.object = some obj)
    (hspec : getPodSpec obj.data req.kind = some podSpec)
    (hcs : (podSpec.get "topologySpreadConstraints").bind Json.asArray
      = some cs)
    (hne : cs.isEmpty = false) :
    (topologySpreadEvaluate config req mutating).patches = [] ∧
    (∀ (i : Nat) (c : Json), cs[i]? = some c →
      (c.get "maxSkew").bind Json.asI64 = none →
      constraintCheck config req.kind (resourceName req obj) i c = []) := by
  constructor
  · simp [topologySpreadEvaluate, hobj, hspec, hcs, hne]
  · intro i c _ hnone
    unfold constraintCheck
    rw [hnone]

/-- Witness for C10: a Pod whose only constraint has a string
`maxSkew`. -/
theorem c10_bad_maxskew_skipped_witness :
    (topologySpreadEvaluate cfgTS0 reqBadSkew false).patches = [] ∧
    constraintCheck cfgTS0 "Pod" "p" 0 (Json.obj [("maxSkew", Json.str "many")])
      = [] := by
  have h := c10_bad_maxskew_skipped cfgTS0 reqBadSkew objBadSkew
    (Json.obj [("topologySpreadConstraints",
      Json.arr [Json.obj [("maxSkew", Json.str "many")]])])
    [Json.obj [("maxSkew", Json.str "many")]] false rfl rfl rfl rfl
  exact ⟨h.1, h.2 0 (Json.obj [("maxSkew", Json.str "many")]) rfl rfl⟩

/-- `get_pod_spec` yields `none` for kinds outside the §4.1 table. -/
theorem getPodSpec_unknown (data : Json) (kind : String)
    (h1 : kind ≠ "Pod") (h2 : kind ≠ "Deployment") (h3 : kind ≠ "ReplicaSet")
    (h4 : kind ≠ "StatefulSet") (h5 : kind ≠ "DaemonSet") (h6 : kind ≠ "Job")
    (h7 : kind ≠ "CronJob") :
    getPodSpec data kind = none := by
  simp [getPodSpec, h1, h2, h3, h4, h5, h6, h7]

/-- **C1 (counterexample)** — A request with an object present and the
unknown kind `ConfigMap` on which the labels policy still reports a
violation, so not every policy yields `allowed=true` there. -/
theorem c1_counterexample :
    reqC1.object.isSome = true ∧
    reqC1.kind ∉ (["Pod", "Deployment", "ReplicaSet", "StatefulSet",
      "DaemonSet", "Job", "CronJob"] : List String) ∧
    (labelsEvaluate cls0 reqC1).violations ≠ [] := by
  refine ⟨rfl, by decide, by decide⟩

/-- **C1 (amended)** — For every request with object present and kind
outside the seven workload kinds, the three pod-spec policies
(resource-limits, image-registry, topology-spread) yield no violations
and no patches; the labels policy yields no patches (but inspects the
object metadata regardless of kind, so it may still report
violations). -/
theorem c1_unknown_kind_noop (cfgRL : ResourceLimitsPolicy)
    (cfgIR : AllowedRegistriesPolicy) (cfgTS : TopologySpreadPolicy)
    (compiledLabels : List CompiledLabel) (req : AdmissionRequest)
    (mutating : Bool)
    (hobj : req.object.isSome = true)
    (hkind : req.kind ∉ (["Pod", "Deployment", "ReplicaSet", "StatefulSet",
      "DaemonSet", "Job", "CronJob"] : List String)) :
    (resourceLimitsEvaluate cfgRL req mutating).violations = [] ∧
    (resourceLimitsEvaluate cfgRL req mutating).patches = [] ∧
    (imageRegistryEvaluate cfgIR req).violations = [] ∧
    (imageRegistryEvaluate cfgIR req).patches = [] ∧
    (topologySpreadEvaluate cfgTS req mutating).violations = [] ∧
    (topologySpreadEvaluate cfgTS req mutating).patches = [] ∧
    (labelsEvaluate compiledLabels req).patches = [] := by
  simp only [List.mem_cons, List.not_mem_nil, or_false, not_or] at hkind
  obtain ⟨h1, h2, h3, h4, h5, h6, h7⟩ := hkind
  obtain ⟨obj, hobj'⟩ := Option.isSome_iff_exists.mp hobj
  have hnone := getPodSpec_unknown obj.data req.kind h1 h2 h3 h4 h5 h6 h7
  refine ⟨?_, ?_, ?_, ?_, ?_, ?_, ?_⟩ <;>
    simp [resourceLimitsEvaluate, imageRegistryEvaluate,
      topologySpreadEvaluate, labelsEvaluate, hobj', hnone,
      PolicyOutput.allowedOut]

/-- Witness for the amended C1 at the `ConfigMap` request. -/
theorem c1_unknown_kind_noop_witness :
    (resourceLimitsEvaluate cfgRL0 reqC1 true).violations = [] ∧
    (resourceLimitsEvaluate cfgRL0 reqC1 true).patches = [] ∧
    (imageRegistryEvaluate cfgIR0 reqC1).violations = [] ∧
    (imageRegistryEvaluate cfgIR0 reqC1).patches = [] ∧
    (topologySpreadEvaluate cfgTS0 reqC1 true).violations = [] ∧
    (topologySpreadEvaluate cfgTS0 reqC1 true).patches = [] ∧
    (labelsEvaluate cls0 reqC1).patches = [] :=
  c1_unknown_kind_noop cfgRL0 cfgIR0 cfgTS0 cls0 reqC1 true rfl (by decide)

/-- A successful field lookup forces a non-empty object. -/
theorem get_some_nonempty (j : Json) (k : String) (v : Json)
    (h : j.get k = some v) :
    ∃ fs, j.asObject = some fs ∧ fs.isEmpty = false := by
  cases j with
  | obj fields =>
      refine ⟨fields, rfl, ?_⟩
      cases fields with
      | nil => simp [Json.get, lookupField] at h
      | cons p rest => rfl
  | null => simp [Json.get] at h
  | bool b => simp [Json.get] at h
  | num n => simp [Json.get] at h
  | str s => simp [Json.get] at h
  | arr elems => simp [Json.get] at h

/-- A fully populated container receives no default-injection patch. -/
theorem generateResourcePatches_empty (config : ResourceLimitsPolicy)
    (c : Json) (pfx : String) (idx : Nat)
    (h : containerFullyPopulated c = true) :
    generateResourcePatches config c pfx idx = [] := by
  unfold containerFullyPopulated at h
  cases hres : c.get "resources" with
  | none => rw [hres] at h; simp at h
  | some r =>
    rw [hres] at h
    simp only [Option.some_bind, Bool.and_eq_true] at h
    obtain ⟨⟨hqc, hqm⟩, hlc, hlm⟩ := h
    cases hrq : r.get "requests" with
    | none => rw [hrq] at hqc; simp at hqc
    | some rq =>
      rw [hrq, Option.some_bind] at hqc hqm
      cases hrl : r.get "limits" with
      | none => rw [hrl] at hlc; simp at hlc
      | some lm =>
        rw [hrl, Option.some_bind] at hlc hlm
        obtain ⟨fs, hfs, hfe⟩ := get_some_nonempty r "requests" rq hrq
        obtain ⟨vc, hvc⟩ := Option.isSome_iff_exists.mp hqc
        obtain ⟨vm, hvm⟩ := Option.isSome_iff_exists.mp hqm
        obtain ⟨wc, hwc⟩ := Option.isSome_iff_exists.mp hlc
        obtain ⟨wm, hwm⟩ := Option.isSome_iff_exists.mp hlm
        simp [generateResourcePatches, hres, hrq, hrl, resourcesNonempty,
          hfs, hfe, hvc, hvm, hwc, hwm]

/-- The labels policy never emits patches. -/
theorem labelsEvaluate_patches (compiledLabels : List CompiledLabel)
    (req : AdmissionRequest) :
    (labelsEvaluate compiledLabels req).patches = [] := by
  unfold labelsEvaluate
  cases req.object <;> rfl

/-- The image-registry policy never emits patches. -/
theorem imageRegistryEvaluate_patches (config : AllowedRegistriesPolicy)
    (req : AdmissionRequest) :
    (imageRegistryEvaluate config req).patches = [] := by
  unfold imageRegistryEvaluate
  cases hobj : req.object with
  | none => rfl
  | some obj =>
      cases hspec : getPodSpec obj.data req.kind <;>
        simp [hspec, PolicyOutput.allowedOut]

/-- Resource-limits emits no patches over fully populated containers. -/
theorem resourceLimitsEvaluate_patches_empty (config : ResourceLimitsPolicy)
    (req : AdmissionRequest) (obj : DynamicObject) (podSpec : Json)
    (mutating : Bool)
    (hobj : req.object = some obj)
    (hspec : getPodSpec obj.data req.kind = some podSpec)
    (hcont : ((getContainers podSpec).all
      fun p => containerFullyPopulated p.2) = true) :
    (resourceLimitsEvaluate config req mutating).patches = [] := by
  unfold resourceLimitsEvaluate
  simp only [hobj, hspec]
  cases hinj : config.inject_defaults
  · simp [hinj]
  · simp only [hinj, if_true]
    rw [List.flatten_eq_nil_iff]
    intro l hl
    obtain ⟨p, hp, rfl⟩ := List.mem_map.mp hl
    exact generateResourcePatches_empty config p.2 (specPrefix req.kind) p.1
      (List.all_eq_true.mp hcont p hp)

/-- Topology-spread emits no patches when constraints are present and
non-empty. -/
theorem topologySpreadEvaluate_patches_empty (config : TopologySpreadPolicy)
    (req : AdmissionRequest) (obj : DynamicObject) (podSpec : Json)
    (cs : List Json) (mutating : Bool)
    (hobj : req.object = some obj)
    (hspec : getPodSpec obj.data req.kind = some podSpec)
    (hcs : (podSpec.get "topologySpreadConstraints").bind Json.asArray
      = some cs)
    (hne : cs.isEmpty = false) :
    (topologySpreadEvaluate config req mutating).patches = [] := by
  simp [topologySpreadEvaluate, hobj, hspec, hcs, hne]

/-- **C5** — An object already carrying everything this webhook would
inject (populated requests/limits cpu+memory for every container, and a
non-empty `topologySpreadConstraints` whose elements' `maxSkew` equals
the configured maximum) receives zero patches from every policy on the
mutating path. -/
theorem c5_idempotent_no_new_patches (eng : PolicyEngine)
    (req : AdmissionRequest) (obj : DynamicObject) (podSpec : Json)
    (cs : List Json)
    (hobj : req.object = some obj)
    (hspec : getPodSpec obj.data req.kind = some podSpec)
    (hcont : ((getContainers podSpec).all
      fun p => containerFullyPopulated p.2) = true)
    (hcs : (podSpec.get "topologySpreadConstraints").bind Json.asArray
      = some cs)
    (hne : cs.isEmpty = false)
    (_hskew : (cs.all fun c => ((c.get "maxSkew").bind Json.asI64) ==
      some eng.config.topology_spread.max_skew) = true) :
    ((eng.evaluateMutate req).all fun r => r.patches.isEmpty) = true := by
  rw [List.all_eq_true]
  intro r hr
  unfold PolicyEngine.evaluateMutate PolicyEngine.evaluateAll at hr
  obtain ⟨name, hmem, rfl⟩ := List.mem_map.mp hr
  rw [List.isEmpty_iff, toResult_patches, if_pos rfl]
  cases name with
  | resource_limits =>
      exact resourceLimitsEvaluate_patches_empty eng.config.resource_limits
        req obj podSpec true hobj hspec hcont
  | image_registry =>
      exact imageRegistryEvaluate_patches eng.config.image_registry req
  | labels => exact labelsEvaluate_patches eng.compiledLabels req
  | topology_spread =>
      exact topologySpreadEvaluate_patches_empty eng.config.topology_spread
        req obj podSpec cs true hobj hspec hcs hne

/-- Witness for C5: the fully patched Pod under `cfg0`. -/
theorem c5_idempotent_no_new_patches_witness :
    ((eng0.evaluateMutate reqPatched).all fun r => r.patches.isEmpty)
      = true :=
  c5_idempotent_no_new_patches eng0 reqPatched objPatched
    (Json.obj [
      ("containers", Json.arr [Json.obj [
        ("name", Json.str "c"),
        ("image", Json.str "gcr.io/p/i:v1"),
        ("resources", Json.obj [
          ("requests", Json.obj [("cpu", Json.str "100m"),
                                 ("memory", Json.str "128Mi")]),
          ("limits", Json.obj [("cpu", Json.str "500m"),
                               ("memory", Json.str "256Mi")])])]]),
      ("topologySpreadConstraints", Json.arr [Json.obj [
        ("maxSkew", Json.num 1),
        ("topologyKey", Json.str "topology.kubernetes.io/zone")]])])
    [Json.obj [("maxSkew", Json.num 1),
               ("topologyKey", Json.str "topology.kubernetes.io/zone")]]
    rfl rfl (by decide) rfl rfl (by decide)
